import Mathlib

/-!
# rplidar-scan: a verification development of `main.cpp`

The program sequences calls into the vendor's RPLIDAR driver and formats what the
driver returns.  This file embeds

* the part of a `std::ostream` that `main.cpp` exercises (field width, fill
  character, number base, the `uppercase` flag), and on top of it
  `PrintRPlidarDeviceInfo`;
* `std::stoi` on the second command-line argument;
* `main` itself, as a function from the command line and the driver's answers to
  the trace of observable events and the way the process ends.

The driver (`rplidar.h`) is an external collaborator: its constants are collected
in `Sdk`, its answers in `Driver`.
-/

namespace RplidarScan

/-! ## Machine integers -/

/-- The vendor's `_u8`: an unsigned byte. -/
abbrev U8 := Fin 256

/-- The vendor's `_u16`. -/
abbrev U16 := Fin 65536

/-- The vendor's `_u32`. -/
abbrev U32 := Fin 4294967296

/-! ## The output stream -/

/-- The formatting state of a `std::ostream` as far as `main.cpp` touches it, together
with the characters written so far.  Every other piece of stream state keeps the value
it has when the program starts (right adjustment, no `showbase`, no `showpos`, the
classic locale, no error bit). -/
structure OStream where
  /-- Characters written so far. -/
  out : List Char
  /-- The field width: set by `std::setw`, cleared by every formatted insertion. -/
  width : Nat
  /-- The fill character, set by `std::setfill`. -/
  fill : Char
  /-- Whether the base field is `hex` (otherwise it is `dec`). -/
  hex : Bool
  /-- The `uppercase` flag. -/
  uppercase : Bool

/-- The state of `std::cout` when `main` starts. -/
def coutInit : OStream :=
  { out := [], width := 0, fill := ' ', hex := false, uppercase := false }

namespace OStream

/-- Right adjustment: a field shorter than the width gets fill characters in front. -/
def padded (os : OStream) (field : List Char) : List Char :=
  List.replicate (os.width - field.length) os.fill ++ field

/-- Every formatted insertion writes its padded field and clears the width. -/
def insert (os : OStream) (field : List Char) : OStream :=
  { os with out := os.out ++ os.padded field, width := 0 }

/-- The stream insertion of a C string. -/
def putStr (os : OStream) (s : String) : OStream :=
  os.insert s.toList

/-- The stream insertion of a single `char`. -/
def putChar (os : OStream) (c : Char) : OStream :=
  os.insert [c]

/-- The manipulator `std::setw(n)`. -/
def setw (os : OStream) (n : Nat) : OStream :=
  { os with width := n }

/-- The manipulator `std::setfill(c)`. -/
def setfill (os : OStream) (c : Char) : OStream :=
  { os with fill := c }

/-- The manipulator `std::hex`. -/
def setHex (os : OStream) : OStream :=
  { os with hex := true }

/-- The manipulator `std::dec`. -/
def setDec (os : OStream) : OStream :=
  { os with hex := false }

/-- The manipulator `std::uppercase`. -/
def setUppercase (os : OStream) : OStream :=
  { os with uppercase := true }

end OStream

/-- The character of one digit: the library's digit tables. -/
def digitChar (upper : Bool) (d : Nat) : Char :=
  (if upper then "0123456789ABCDEF" else "0123456789abcdef").toList.getD d '?'

/-- Digits of `n` in the given base, most significant first, in front of `acc`;
`fuel` bounds the number of digits. -/
def toDigitsAux (base : Nat) (upper : Bool) : Nat → Nat → List Char → List Char
  | 0, _, acc => acc
  | fuel + 1, n, acc =>
    if n / base = 0 then digitChar upper (n % base) :: acc
    else toDigitsAux base upper fuel (n / base) (digitChar upper (n % base) :: acc)

/-- The numeral of a natural number in the given base. -/
def numeral (base : Nat) (upper : Bool) (n : Nat) : List Char :=
  toDigitsAux base upper (n + 1) n []

/-- The field that the stream insertion of an `int` produces: in base `hex` the value is
converted as a 32-bit unsigned number, in base `dec` as a signed one. -/
def intField (os : OStream) (n : Int) : List Char :=
  if os.hex then numeral 16 os.uppercase (n % 4294967296).toNat
  else if n < 0 then '-' :: numeral 10 os.uppercase n.natAbs
  else numeral 10 os.uppercase n.natAbs

/-- The stream insertion of an `int`. -/
def OStream.putInt (os : OStream) (n : Int) : OStream :=
  os.insert (intField os n)

/-! ## Device information -/

/-- Modelled from the spec: the record `rplidar_response_device_info_t` of the absent
header `rplidar.h`, as far as `main.cpp` reads it: a fixed-length serial number (sixteen
bytes in the vendor's header), a 16-bit firmware version, an 8-bit hardware version. -/
structure rplidar_response_device_info_t where
  firmware_version : U16
  hardware_version : U8
  serialnum : Fin 16 → U8

/-- The lambda that `PrintRPlidarDeviceInfo` hands to `std::for_each` (lines 33-38). -/
def printSerialByte (os : OStream) (x : U8) : OStream :=
  ((((os.setw 2).setfill '0').setHex.setUppercase).putInt (x.val : Int)).setDec

/-- The function `PrintRPlidarDeviceInfo` of `main.cpp` (lines 26-47). -/
def PrintRPlidarDeviceInfo (deviceInfo : rplidar_response_device_info_t)
    (cout : OStream) : OStream :=
  let cout := cout.putStr "Serial number: "
  let cout := (List.ofFn deviceInfo.serialnum).foldl printSerialByte cout
  let cout := cout.putChar '\n'
  let cout := cout.putStr "Firmware version: "
  let cout := cout.putInt ((deviceInfo.firmware_version.val >>> 8 : Nat) : Int)
  let cout := cout.putStr "."
  let cout := (cout.setw 2).setfill '0'
  let cout := cout.putInt ((deviceInfo.firmware_version.val &&& 0xFF : Nat) : Int)
  let cout := cout.putChar '\n'
  let cout := cout.putStr "Hardware version: "
  let cout := cout.putInt (deviceInfo.hardware_version.val : Int)
  cout.putChar '\n'

/-! ### What the specification says about the rendering -/

/-- The firmware version as the specification words it: the decimal numeral of the high
byte, a dot, and the decimal numeral of the low byte with a `0` in front when it has
fewer than two digits. -/
def firmwareVersionText (v : U16) : String :=
  let major := Nat.repr (v.val >>> 8)
  let minor := Nat.repr (v.val &&& 0xFF)
  major ++ "." ++ (if minor.length < 2 then "0" ++ minor else minor)

/-- The value of an uppercase hexadecimal digit; no other character has one. -/
def upperHexValue (c : Char) : Option Nat :=
  if '0' ≤ c ∧ c ≤ '9' then some (c.toNat - '0'.toNat)
  else if 'A' ≤ c ∧ c ≤ 'F' then some (c.toNat - 'A'.toNat + 10)
  else none

/-- Reading two characters as a base-16 numeral. -/
def readHexPair (hi lo : Char) : Option Nat :=
  match upperHexValue hi, upperHexValue lo with
  | some a, some b => some (16 * a + b)
  | _, _ => none


/-! ## The driver interface -/

/-- The constants and the macro of the absent header `rplidar.h` that `main` uses; they
are parameters of the model. -/
structure Sdk where
  /-- The macro `IS_FAIL` on a `u_result`. -/
  IS_FAIL : U32 → Bool
  /-- The health status `RPLIDAR_STATUS_ERROR`. -/
  RPLIDAR_STATUS_ERROR : U8
  /-- The constant `RPlidarDriver::MAX_SCAN_NODES`. -/
  MAX_SCAN_NODES : Nat
  /-- The constant `DRIVER_TYPE_SERIALPORT`. -/
  DRIVER_TYPE_SERIALPORT : U32

/-- Modelled from the spec: the record `rplidar_response_device_health_t` of the absent
header `rplidar.h`: a status and an error code. -/
structure rplidar_response_device_health_t where
  status : U8
  error_code : U16

/-- Modelled from the spec: the record `rplidar_response_measurement_node_hq_t` of the
absent header `rplidar.h`: a fixed-point angle, a fixed-point distance, a quality and a
flag byte. -/
structure rplidar_response_measurement_node_hq_t where
  angle_z_q14 : U16
  dist_mm_q2 : U32
  quality : U8
  flag : U8

/-- Modelled from the spec: the record `RplidarScanMode` of the absent header
`rplidar.h`; the two `float` fields are kept as their 32-bit patterns, the mode name as
its characters. -/
structure RplidarScanMode where
  id : U16
  us_per_sample : U32
  max_distance : U32
  ans_type : U8
  scan_mode : List Char

/-- A call into the driver with its arguments and, for the calls whose `u_result` is
tested with `IS_FAIL`, the result that came back. -/
inductive DriverCall where
  | CreateDriver (type : U32)
  | connect (port : String) (baudrate : U32) (opResult : U32)
  | getDeviceInfo (opResult : U32)
  | getHealth (opResult : U32)
  | startMotor (opResult : U32)
  | startScan (force useTypicalScan : Bool) (options : U32) (opResult : U32)
  | grabScanDataHq (count : Nat) (opResult : U32)
  | ascendScanData (count : Nat)
  | stop
  | stopMotor
  | disconnect
  | DisposeDriver
deriving DecidableEq

/-- What a run of the program does that can be observed from outside, in program order. -/
inductive Event where
  /-- A call into the driver. -/
  | call (c : DriverCall)
  /-- One statement writing to `std::cerr`, with its text. -/
  | cerr (text : String)
  /-- A call of `PrintRPlidarDeviceInfo`. -/
  | printDeviceInfo (deviceInfo : rplidar_response_device_info_t)
  /-- A call of `PrintRPlidarHealthInfo`. -/
  | printHealthInfo (healthInfo : rplidar_response_device_health_t)
  /-- A call of `PrintRPlidarScanMode`. -/
  | printScanMode (scanMode : RplidarScanMode)
  /-- A call of `PrintRPlidarMeasurementNodeHqInfo`. -/
  | printNode (measurementNode : rplidar_response_measurement_node_hq_t)
  /-- The call of `sigaction` that installs `SigintHandler`. -/
  | sigaction

/-- Everything outside the program that a run depends on: what the driver answers and
when the interrupt flag is seen set. -/
structure World where
  /-- Whether `RPlidarDriver::CreateDriver` returns a handle (not `nullptr`). -/
  CreateDriver : Bool
  /-- The result of `connect` on a port and baud rate. -/
  connect : String → U32 → U32
  /-- The result of `getDeviceInfo` and the record it fills in. -/
  getDeviceInfo : U32 × rplidar_response_device_info_t
  /-- The result of `getHealth` and the record it fills in. -/
  getHealth : U32 × rplidar_response_device_health_t
  /-- The result of `startMotor`. -/
  startMotor : U32
  /-- The result of `startScan` and the scan mode it reports. -/
  startScan : U32 × RplidarScanMode
  /-- The answer to the fetch of loop iteration `k`, given the buffer and the count
  passed in: the result, the buffer and the count afterwards (`count` is passed by
  reference). -/
  grabScanDataHq : Nat → (Nat → rplidar_response_measurement_node_hq_t) → Nat →
    U32 × (Nat → rplidar_response_measurement_node_hq_t) × Nat
  /-- The answer to the sort of loop iteration `k`: the result and the buffer afterwards. -/
  ascendScanData : Nat → (Nat → rplidar_response_measurement_node_hq_t) → Nat →
    U32 × (Nat → rplidar_response_measurement_node_hq_t)
  /-- The content of the buffer `measuredNodes` before the first fetch. -/
  measuredNodes : Nat → rplidar_response_measurement_node_hq_t
  /-- Whether `gSigintHandled == 1` holds at the check of loop iteration `k`. -/
  gSigintHandled : Nat → Bool

/-! ## `std::stoi` -/

/-- The exceptions of `std::stoi`. -/
inductive StoiError where
  | invalid_argument
  | out_of_range
deriving DecidableEq

/-- The C function `isspace` in the classic locale. -/
def isspace (c : Char) : Bool :=
  c == ' ' || c == '\t' || c == '\n' || c == '\x0b' || c == '\x0c' || c == '\r'

/-- The value of a run of decimal digits. -/
def digitsValue (ds : List Char) : Nat :=
  ds.foldl (fun acc c => 10 * acc + (c.toNat - '0'.toNat)) 0

/-- The library call `std::stoi(str, nullptr, 10)` with a 32-bit `int`: white space is
skipped, an optional sign is read, then the longest run of decimal digits; whatever
follows is ignored because the position argument is `nullptr`.  No digit at all throws
`std::invalid_argument`, a value that does not fit an `int` throws `std::out_of_range`. -/
def stoi (str : String) : Except StoiError Int :=
  let s := str.toList.dropWhile isspace
  let negative := s.head? == some '-'
  let s := if s.head? == some '-' || s.head? == some '+' then s.tail else s
  let ds := s.takeWhile Char.isDigit
  if ds.isEmpty then .error .invalid_argument
  else
    let value : Int := if negative then - (digitsValue ds : Int) else (digitsValue ds : Int)
    if value < -2147483648 ∨ 2147483647 < value then .error .out_of_range
    else .ok value

/-! ## `main` -/

/-- How the process ends. -/
inductive Termination where
  /-- The function `main` returned this status. -/
  | returned (statusCode : Int)
  /-- An exception left `main`, so `std::terminate` aborted the process. -/
  | uncaught (e : StoiError)
deriving DecidableEq

/-- A finished run: its events and its end. -/
structure Run where
  trace : List Event
  ending : Termination

/-- The status `EXIT_SUCCESS` of `<cstdlib>`. -/
def EXIT_SUCCESS : Int := 0

/-- The status `EXIT_FAILURE` of `<cstdlib>`. -/
def EXIT_FAILURE : Int := 1

/-- The local `defaultPortName` of `main`. -/
def defaultPortName : String := "/dev/ttyUSB0"

/-- The local `availableBaudrates` of `main`. -/
def availableBaudrates : List Int := [115200, 256000]

/-- The conversion `static_cast<_u32>` of an `int`. -/
def static_cast_u32 (n : Int) : U32 :=
  ⟨(n % 4294967296).toNat, by omega⟩

/-- The conversion `static_cast<int>` of a `size_t`. -/
def static_cast_int (n : Nat) : Int :=
  if n % 4294967296 < 2147483648 then (n % 4294967296 : Nat)
  else ((n % 4294967296 : Nat) : Int) - 4294967296

/-- Lines 118-127 of `main`: the port name and the baud rate from the command line
(`argv` includes the program name), or the exception that `std::stoi` throws. -/
def parseArgs (argv : List String) : Except StoiError (String × Int) :=
  let portName := if argv.length > 1 then argv.getD 1 "" else defaultPortName
  if argv.length > 2 then
    match stoi (argv.getD 2 "") with
    | .error e => .error e
    | .ok comBaudrate => .ok (portName, comBaudrate)
  else .ok (portName, availableBaudrates.headD 0)

/-- Lines 224-243 of `main`: the acquisition loop from iteration `k` on, with the buffer
`measuredNodes` and the variable `actualNumOfNodes` as they are at that point.  The
result is the events of the loop until it is left; `none` when it is still running
after `fuel` iterations. -/
def acquire (sdk : Sdk) (w : World) :
    Nat → Nat → (Nat → rplidar_response_measurement_node_hq_t) → Nat → Option (List Event)
  | 0, _, _, _ => none
  | fuel + 1, k, measuredNodes, actualNumOfNodes =>
    if w.gSigintHandled k then some []
    else
      let fetched := w.grabScanDataHq k measuredNodes actualNumOfNodes
      if sdk.IS_FAIL fetched.1 then
        some [.call (.grabScanDataHq actualNumOfNodes fetched.1),
              .cerr "RPlidarDriver::grabScanDataHq() failed\n"]
      else
        let sorted := w.ascendScanData k fetched.2.1 fetched.2.2
        let prints := (List.range (static_cast_int fetched.2.2).toNat).map
          fun i => Event.printNode (sorted.2 i)
        (acquire sdk w fuel (k + 1) sorted.2 fetched.2.2).map fun rest =>
          .call (.grabScanDataHq actualNumOfNodes fetched.1) ::
            .call (.ascendScanData fetched.2.2) :: (prints ++ rest)

/-- Lines 147-243 of `main`: everything between the creation of the driver and the label
`Cleanup`.  The result is the events up to the jump to (or the arrival at) `Cleanup` and
the value of `statusCode` there. -/
def session (sdk : Sdk) (w : World) (portName : String) (comBaudrate : Int) (fuel : Nat) :
    Option (List Event × Int) :=
  let baud := static_cast_u32 comBaudrate
  let t := [Event.call (.connect portName baud (w.connect portName baud))]
  if sdk.IS_FAIL (w.connect portName baud) then
    some (t ++ [.cerr "RPlidarDriver::connect() failed\n"], EXIT_FAILURE)
  else
  let t := t ++ [.call (.getDeviceInfo w.getDeviceInfo.1)]
  if sdk.IS_FAIL w.getDeviceInfo.1 then
    some (t ++ [.cerr "RPlidarDriver::getDeviceInfo() failed\n"], EXIT_FAILURE)
  else
  let t := t ++ [.printDeviceInfo w.getDeviceInfo.2, .call (.getHealth w.getHealth.1)]
  if sdk.IS_FAIL w.getHealth.1 then
    some (t ++ [.cerr "RPlidarDriver::getHealth() failed\n"], EXIT_FAILURE)
  else
  let t := t ++ [.printHealthInfo w.getHealth.2]
  if w.getHealth.2.status == sdk.RPLIDAR_STATUS_ERROR then
    some (t ++ [.cerr "RPlidar internal error detected\n"], EXIT_FAILURE)
  else
  let t := t ++ [.sigaction, .call (.startMotor w.startMotor)]
  if sdk.IS_FAIL w.startMotor then
    some (t ++ [.cerr "RPlidarDriver::startMotor() failed\n"], EXIT_FAILURE)
  else
  let t := t ++ [.call (.startScan false true 0 w.startScan.1)]
  if sdk.IS_FAIL w.startScan.1 then
    some (t ++ [.cerr "RPlidarDriver::startScan() failed\n"], EXIT_FAILURE)
  else
  let t := t ++ [.printScanMode w.startScan.2]
  (acquire sdk w fuel 0 w.measuredNodes sdk.MAX_SCAN_NODES).map fun loop =>
    (t ++ loop, EXIT_SUCCESS)

/-- The block after the label `Cleanup` (lines 245-257). -/
def cleanup : List Event :=
  [.call .stop, .call .stopMotor, .call .disconnect, .call .DisposeDriver]

/-- Lines 129-259 of `main`: the program once `portName` and `comBaudrate` are known. -/
def mainFrom (sdk : Sdk) (w : World) (portName : String) (comBaudrate : Int) (fuel : Nat) :
    Option Run :=
  if comBaudrate ∉ availableBaudrates then
    some ⟨[.cerr "Invalid baudrate specified\nAvailable baudrate: 115200, 256000\n"],
      .returned EXIT_FAILURE⟩
  else if !w.CreateDriver then
    some ⟨[.call (.CreateDriver sdk.DRIVER_TYPE_SERIALPORT),
      .cerr "RPlidarDriver::CreateDriver() failed\n"], .returned EXIT_FAILURE⟩
  else
    (session sdk w portName comBaudrate fuel).map fun r =>
      ⟨.call (.CreateDriver sdk.DRIVER_TYPE_SERIALPORT) :: (r.1 ++ cleanup), .returned r.2⟩

/-- The function `main` of `main.cpp` on the command line `argv` (program name
included).  The result is `none` when the acquisition loop is still running after
`fuel` iterations. -/
def main (sdk : Sdk) (w : World) (argv : List String) (fuel : Nat) : Option Run :=
  match parseArgs argv with
  | .error e => some ⟨[], .uncaught e⟩
  | .ok (portName, comBaudrate) => mainFrom sdk w portName comBaudrate fuel

/-- The driver calls of a trace, in order. -/
def driverCalls : List Event → List DriverCall
  | [] => []
  | .call c :: rest => c :: driverCalls rest
  | _ :: rest => driverCalls rest


/-- The place of a driver call in the startup sequence, for the five startup steps. -/
def startupRank : DriverCall → Option Nat
  | .connect _ _ _ => some 0
  | .getDeviceInfo _ => some 1
  | .getHealth _ => some 2
  | .startMotor _ => some 3
  | .startScan _ _ _ _ => some 4
  | _ => none

/-- The `u_result` that a driver call came back with, where the trace records it. -/
def opResult : DriverCall → Option U32
  | .connect _ _ r => some r
  | .getDeviceInfo r => some r
  | .getHealth r => some r
  | .startMotor r => some r
  | .startScan _ _ _ r => some r
  | .grabScanDataHq _ r => some r
  | _ => none

/-- Startup step number `i` fails in a run: the run contains the call of that step and
its result is a failure, or (for `getHealth`, step 2) the run prints a health record
whose status is `RPLIDAR_STATUS_ERROR`. -/
def StepFails (sdk : Sdk) (trace : List Event) (i : Nat) : Prop :=
  (∃ c r, Event.call c ∈ trace ∧ startupRank c = some i ∧ opResult c = some r ∧
    sdk.IS_FAIL r = true) ∨
  (i = 2 ∧ ∃ h, Event.printHealthInfo h ∈ trace ∧ h.status = sdk.RPLIDAR_STATUS_ERROR)

/-- A fetch that came back with a failure. -/
def isFailedFetch (sdk : Sdk) : Event → Bool
  | .call (.grabScanDataHq _ r) => sdk.IS_FAIL r
  | _ => false

/-- The events that the acquisition loop can produce. -/
def isLoopEvent : Event → Bool
  | .call (.grabScanDataHq _ _) => true
  | .call (.ascendScanData _) => true
  | .printNode _ => true
  | .cerr _ => true
  | _ => false

/-- The two ways in which the events of the acquisition loop can end: without any failed
fetch (the interrupt flag was seen), or with a failed fetch and its message on
`std::cerr` as the very last events. -/
def LoopEnds (sdk : Sdk) (evs : List Event) : Prop :=
  (∀ e ∈ evs, isFailedFetch sdk e = false) ∨
    ∃ pre c r, sdk.IS_FAIL r = true ∧
      evs = pre ++ [.call (.grabScanDataHq c r),
        .cerr "RPlidarDriver::grabScanDataHq() failed\n"] ∧
      ∀ e ∈ pre, isFailedFetch sdk e = false

/-- The two characters that one serial-number byte is printed as. -/
def hexPair (x : U8) : List Char :=
  [digitChar true (x.val / 16), digitChar true (x.val % 16)]

/-- The buffer `measuredNodes` and the variable `actualNumOfNodes` after `j` further
iterations of the acquisition loop in which the fetch succeeds, starting at iteration
`k` with the given buffer and count. -/
def loopStateAfter (w : World) :
    Nat → Nat → (Nat → rplidar_response_measurement_node_hq_t) → Nat →
      (Nat → rplidar_response_measurement_node_hq_t) × Nat
  | 0, _, measuredNodes, actualNumOfNodes => (measuredNodes, actualNumOfNodes)
  | j + 1, k, measuredNodes, actualNumOfNodes =>
    loopStateAfter w j (k + 1)
      (w.ascendScanData k (w.grabScanDataHq k measuredNodes actualNumOfNodes).2.1
        (w.grabScanDataHq k measuredNodes actualNumOfNodes).2.2).2
      (w.grabScanDataHq k measuredNodes actualNumOfNodes).2.2

/-- The result of the fetch of iteration `k` of the loop as `main` issues it when the
iterations before it complete: the buffer and the count are those that the earlier
fetches and sorts left behind. -/
def fetchResultAt (sdk : Sdk) (w : World) (k : Nat) : U32 :=
  (w.grabScanDataHq k (loopStateAfter w k 0 w.measuredNodes sdk.MAX_SCAN_NODES).1
    (loopStateAfter w k 0 w.measuredNodes sdk.MAX_SCAN_NODES).2).1

/-! ## Sample devices and runs -/

/-- A sample instance of `Sdk` with the values of the vendor's header: `IS_FAIL` tests
bit 31 of the result, the error status is 2, a scan holds at most 8192 nodes. -/
def vendorSdk : Sdk :=
  { IS_FAIL := fun x => x.val &&& 0x80000000 != 0
    RPLIDAR_STATUS_ERROR := 2
    MAX_SCAN_NODES := 8192
    DRIVER_TYPE_SERIALPORT := 0 }

/-- A measurement node at a quarter turn, one metre away. -/
def sampleNode : rplidar_response_measurement_node_hq_t :=
  { angle_z_q14 := 16384, dist_mm_q2 := 4000, quality := 47, flag := 1 }

/-- A device on which every call succeeds: each fetch delivers two nodes, and the
interrupt flag is seen set at the third check of the loop. -/
def healthyWorld : World :=
  { CreateDriver := true
    connect := fun _ _ => 0
    getDeviceInfo := (0, { firmware_version := 0x0102, hardware_version := 5,
                           serialnum := fun i => ⟨i.val * 17 % 256, by omega⟩ })
    getHealth := (0, { status := 0, error_code := 0 })
    startMotor := 0
    startScan := (0, { id := 0, us_per_sample := 0, max_distance := 0, ans_type := 0x84,
                       scan_mode := "Sensitivity".toList })
    grabScanDataHq := fun _ _ _ => (0, fun _ => sampleNode, 2)
    ascendScanData := fun _ buf _ => (0, buf)
    measuredNodes := fun _ => sampleNode
    gSigintHandled := fun k => decide (2 ≤ k) }

/-- The healthy device when the interrupt flag is already set at the first check. -/
def interruptedWorld : World :=
  { healthyWorld with gSigintHandled := fun _ => true }

/-- The healthy device when its health status is `RPLIDAR_STATUS_ERROR`. -/
def faultyWorld : World :=
  { healthyWorld with getHealth := (0, { status := 2, error_code := 0x8001 }) }

/-- The healthy device when the second fetch times out and no interrupt ever arrives. -/
def timeoutWorld : World :=
  { healthyWorld with
    grabScanDataHq := fun k _ n =>
      if k = 0 then (0, fun _ => sampleNode, 2) else (0x80000002, fun _ => sampleNode, n)
    gSigintHandled := fun _ => false }


/-- Whether the five startup steps all succeed and the health status is not
`RPLIDAR_STATUS_ERROR`. -/
def startupOk (sdk : Sdk) (w : World) (portName : String) (comBaudrate : Int) : Bool :=
  !sdk.IS_FAIL (w.connect portName (static_cast_u32 comBaudrate)) &&
  !sdk.IS_FAIL w.getDeviceInfo.1 &&
  !sdk.IS_FAIL w.getHealth.1 &&
  !(w.getHealth.2.status == sdk.RPLIDAR_STATUS_ERROR) &&
  !sdk.IS_FAIL w.startMotor &&
  !sdk.IS_FAIL w.startScan.1

/-- The count that a fetch was requested with. -/
def fetchCount : DriverCall → Option Nat
  | .grabScanDataHq n _ => some n
  | _ => none

/-- The healthy device when even the first fetch fails and no interrupt ever arrives. -/
def deadWorld : World :=
  { healthyWorld with
    grabScanDataHq := fun _ buf n => (0x80000001, buf, n)
    gSigintHandled := fun _ => false }

/-- The events of a startup on the healthy device in which every step succeeds. -/
def healthyStartup : List Event :=
  [.call (.CreateDriver 0), .call (.connect "/dev/ttyUSB0" 115200 0), .call (.getDeviceInfo 0),
   .printDeviceInfo healthyWorld.getDeviceInfo.2, .call (.getHealth 0),
   .printHealthInfo healthyWorld.getHealth.2, .sigaction, .call (.startMotor 0),
   .call (.startScan false true 0 0), .printScanMode healthyWorld.startScan.2]

/-- The run of the program on `faultyWorld`. -/
def faultyRun : Run :=
  { trace := [.call (.CreateDriver 0), .call (.connect "/dev/ttyUSB0" 115200 0),
      .call (.getDeviceInfo 0), .printDeviceInfo healthyWorld.getDeviceInfo.2,
      .call (.getHealth 0), .printHealthInfo faultyWorld.getHealth.2,
      .cerr "RPlidar internal error detected\n"] ++ cleanup
    ending := .returned EXIT_FAILURE }

/-- The run of the program on `interruptedWorld`. -/
def interruptedRun : Run :=
  { trace := healthyStartup ++ cleanup
    ending := .returned EXIT_SUCCESS }

/-- The run of the program on `timeoutWorld`. -/
def timeoutRun : Run :=
  { trace := healthyStartup ++
      [.call (.grabScanDataHq 8192 0), .call (.ascendScanData 2), .printNode sampleNode,
       .printNode sampleNode, .call (.grabScanDataHq 2 0x80000002),
       .cerr "RPlidarDriver::grabScanDataHq() failed\n"] ++ cleanup
    ending := .returned EXIT_SUCCESS }

/-- The run of the program on `deadWorld`. -/
def deadRun : Run :=
  { trace := healthyStartup ++
      [.call (.grabScanDataHq 8192 0x80000001),
       .cerr "RPlidarDriver::grabScanDataHq() failed\n"] ++ cleanup
    ending := .returned EXIT_SUCCESS }

/-! ## Lemmas on numerals -/

theorem digitChar_decimal (upper : Bool) (d : Nat) (h : d < 10) :
    digitChar upper d = Nat.digitChar d := by
  interval_cases d <;> cases upper <;> rfl

theorem toDigitsAux_decimal (upper : Bool) (fuel n : Nat) (acc : List Char) :
    toDigitsAux 10 upper fuel n acc = Nat.toDigitsCore 10 fuel n acc := by
  induction fuel generalizing n acc with
  | zero => rfl
  | succ k ih =>
    have hd : digitChar upper (n % 10) = Nat.digitChar (n % 10) :=
      digitChar_decimal upper (n % 10) (Nat.mod_lt n (by decide))
    simp only [toDigitsAux, Nat.toDigitsCore, hd, ih]

theorem numeral_decimal (upper : Bool) (n : Nat) :
    numeral 10 upper n = (Nat.repr n).toList := by
  simp [numeral, toDigitsAux_decimal, Nat.repr, Nat.toDigits, List.asString]

theorem numeral_hex_byte (upper : Bool) (n : Nat) (h : n < 256) :
    List.replicate (2 - (numeral 16 upper n).length) '0' ++ numeral 16 upper n =
      [digitChar upper (n / 16), digitChar upper (n % 16)] := by
  by_cases h16 : n < 16
  · have h0 : n / 16 = 0 := by omega
    have hm : n % 16 = n := by omega
    simp [numeral, toDigitsAux, h0, hm]
    cases upper <;> rfl
  · obtain ⟨m, rfl⟩ : ∃ m, n = m + 1 := ⟨n - 1, by omega⟩
    have h0 : (m + 1) / 16 ≠ 0 := by omega
    have h1 : (m + 1) / 16 / 16 = 0 := by omega
    have h2 : (m + 1) / 16 % 16 = (m + 1) / 16 := by omega
    simp [numeral, toDigitsAux, h0, h1, h2]


/-! ## Lemmas on `PrintRPlidarDeviceInfo` -/

theorem printSerialByte_eq (os : OStream) (x : U8) :
    printSerialByte os x =
      { out := os.out ++ hexPair x, width := 0, fill := '0', hex := false,
        uppercase := true } := by
  have h := numeral_hex_byte true x.val x.isLt
  have hx : ((x.val : Int) % 4294967296).toNat = x.val := by
    have := x.isLt
    omega
  simp only [printSerialByte, OStream.putInt, OStream.insert, OStream.padded, OStream.setw,
    OStream.setfill, OStream.setHex, OStream.setUppercase, OStream.setDec, intField, hx,
    if_true, h, hexPair]

theorem foldl_printSerialByte_cons (x : U8) (xs : List U8) (os : OStream) :
    (x :: xs).foldl printSerialByte os =
      { out := os.out ++ (x :: xs).flatMap hexPair, width := 0, fill := '0', hex := false,
        uppercase := true } := by
  induction xs generalizing x os with
  | nil => simp [printSerialByte_eq]
  | cons y ys ih =>
    rw [List.foldl_cons, ih, printSerialByte_eq]
    simp [List.append_assoc]

theorem toDigitsAux_length (base : Nat) (upper : Bool) (fuel n : Nat) (acc : List Char) :
    acc.length < (toDigitsAux base upper (fuel + 1) n acc).length := by
  induction fuel generalizing n acc with
  | zero => simp [toDigitsAux]
  | succ k ih =>
    rw [toDigitsAux]
    split
    · simp
    · exact Nat.lt_trans (by simp) (ih _ _)

theorem repr_length_pos (n : Nat) : 0 < (Nat.repr n).length := by
  have h := toDigitsAux_length 10 false n n []
  have e := numeral_decimal false n
  rw [numeral] at e
  rw [e] at h
  exact Nat.lt_of_le_of_lt (Nat.zero_le _) h

theorem intField_dec (os : OStream) (n : Nat) (h : os.hex = false) :
    intField os (n : Int) = (Nat.repr n).toList := by
  have hn : ¬ ((n : Int) < 0) := by omega
  simp only [intField, h, hn, if_false, Int.natAbs_ofNat, numeral_decimal]
  simp

theorem firmwareVersionText_toList (v : U16) :
    (firmwareVersionText v).toList =
      (Nat.repr (v.val >>> 8)).toList ++ '.' ::
        (List.replicate (2 - (Nat.repr (v.val &&& 0xFF)).length) '0' ++
          (Nat.repr (v.val &&& 0xFF)).toList) := by
  have hpos := repr_length_pos (v.val &&& 0xFF)
  simp only [firmwareVersionText]
  by_cases h : (Nat.repr (v.val &&& 0xFF)).length < 2
  · have h1 : (Nat.repr (v.val &&& 0xFF)).length = 1 := by omega
    simp [h1]
  · have h1 : 2 - (Nat.repr (v.val &&& 0xFF)).length = 0 := by omega
    simp [h, h1]

theorem PrintRPlidarDeviceInfo_out (info : rplidar_response_device_info_t) (os : OStream) :
    (PrintRPlidarDeviceInfo info os).out =
      os.out ++ os.padded "Serial number: ".toList ++
        (List.ofFn info.serialnum).flatMap hexPair ++
        "\nFirmware version: ".toList ++ (firmwareVersionText info.firmware_version).toList ++
        "\nHardware version: ".toList ++ (Nat.repr info.hardware_version.val).toList ++
        "\n".toList := by
  rw [firmwareVersionText_toList]
  simp only [PrintRPlidarDeviceInfo]
  rw [List.ofFn_succ, foldl_printSerialByte_cons]
  simp [OStream.putStr, OStream.putChar, OStream.putInt, OStream.insert, OStream.padded,
    OStream.setw, OStream.setfill, intField_dec]


theorem length_flatMap_hexPair (l : List U8) : (l.flatMap hexPair).length = 2 * l.length := by
  induction l with
  | nil => rfl
  | cons x xs ih => simp [List.flatMap_cons, hexPair, ih]; omega

theorem digitChar_upper_mem (d : Nat) (h : d < 16) :
    digitChar true d ∈ "0123456789ABCDEF".toList := by
  interval_cases d <;> decide

theorem upperHexValue_digitChar (d : Nat) (h : d < 16) :
    upperHexValue (digitChar true d) = some d := by
  interval_cases d <;> decide

theorem mem_flatMap_hexPair (l : List U8) (c : Char) (h : c ∈ l.flatMap hexPair) :
    c ∈ "0123456789ABCDEF".toList := by
  obtain ⟨x, -, hc⟩ := List.mem_flatMap.mp h
  have hx := x.isLt
  simp only [hexPair, List.mem_cons, List.mem_singleton, List.not_mem_nil, or_false] at hc
  rcases hc with rfl | rfl
  · exact digitChar_upper_mem _ (by omega)
  · exact digitChar_upper_mem _ (by omega)

theorem readHexPair_hexPair (x : U8) :
    readHexPair (digitChar true (x.val / 16)) (digitChar true (x.val % 16)) = some x.val := by
  have hx := x.isLt
  rw [readHexPair, upperHexValue_digitChar _ (by omega), upperHexValue_digitChar _ (by omega)]
  simp only [Option.some.injEq]
  omega

theorem getElem?_flatMap_hexPair (l : List U8) (i : Nat) (h : i < l.length) :
    (l.flatMap hexPair)[2 * i]? = some (digitChar true ((l.get ⟨i, h⟩).val / 16)) ∧
    (l.flatMap hexPair)[2 * i + 1]? = some (digitChar true ((l.get ⟨i, h⟩).val % 16)) := by
  induction l generalizing i with
  | nil => simp at h
  | cons x xs ih =>
    cases i with
    | zero => simp [List.flatMap_cons, hexPair]
    | succ j =>
      have hj : j < xs.length := by simpa using h
      have e1 : 2 * (j + 1) = 2 * j + 1 + 1 := by omega
      have e2 : 2 * (j + 1) + 1 = 2 * j + 1 + 1 + 1 := by omega
      have := ih j hj
      simp only [List.flatMap_cons, hexPair, List.cons_append, List.nil_append, e1, e2,
        List.getElem?_cons_succ, List.get_cons_succ]
      simpa [hexPair] using this

/-! ## Lemmas on `main` -/

theorem LoopEnds.prepend {sdk : Sdk} {hd rest : List Event}
    (hhd : ∀ e ∈ hd, isFailedFetch sdk e = false) (hrest : LoopEnds sdk rest) :
    LoopEnds sdk (hd ++ rest) := by
  rcases hrest with hnone | ⟨pre, c, r, hr, rfl, hpre⟩
  · left
    intro e he
    rcases List.mem_append.mp he with he | he
    · exact hhd e he
    · exact hnone e he
  · right
    refine ⟨hd ++ pre, c, r, hr, by simp, ?_⟩
    intro e he
    rcases List.mem_append.mp he with he | he
    · exact hhd e he
    · exact hpre e he

theorem acquire_events (sdk : Sdk) (w : World) (fuel : Nat) :
    ∀ (k : Nat) (buf : Nat → rplidar_response_measurement_node_hq_t) (n : Nat)
      (evs : List Event), acquire sdk w fuel k buf n = some evs →
      (∀ e ∈ evs, isLoopEvent e = true) ∧ LoopEnds sdk evs := by
  induction fuel with
  | zero => intro k buf n evs h; simp [acquire] at h
  | succ f ih =>
    intro k buf n evs h
    rw [acquire] at h
    by_cases hs : w.gSigintHandled k = true
    · simp only [hs, if_true, Option.some.injEq] at h
      subst h
      exact ⟨by simp, Or.inl (by simp)⟩
    · by_cases hfail : sdk.IS_FAIL (w.grabScanDataHq k buf n).1 = true
      · simp only [hs, hfail, Bool.false_eq_true, if_true, if_false, Option.some.injEq] at h
        subst h
        refine ⟨by simp [isLoopEvent], Or.inr ⟨[], _, _, hfail, rfl, by simp⟩⟩
      · simp only [hs, hfail, Bool.false_eq_true, if_false, Option.map_eq_some'] at h
        obtain ⟨rest, hrest, rfl⟩ := h
        obtain ⟨hloop, hend⟩ := ih _ _ _ _ hrest
        constructor
        · intro e he
          simp only [List.mem_cons, List.mem_append, List.mem_map] at he
          rcases he with rfl | rfl | ⟨i, -, rfl⟩ | he
          · rfl
          · rfl
          · rfl
          · exact hloop e he
        · have := @LoopEnds.prepend sdk
            (Event.call (.grabScanDataHq n (w.grabScanDataHq k buf n).1) ::
              Event.call (.ascendScanData (w.grabScanDataHq k buf n).2.2) ::
              (List.range (static_cast_int (w.grabScanDataHq k buf n).2.2).toNat).map
                (fun i => Event.printNode ((w.ascendScanData k (w.grabScanDataHq k buf n).2.1
                  (w.grabScanDataHq k buf n).2.2).2 i))) rest ?_ hend
          · simpa using this
          · intro e he
            simp only [List.mem_cons, List.mem_map] at he
            rcases he with rfl | rfl | ⟨i, -, rfl⟩
            · simpa [isFailedFetch] using hfail
            · rfl
            · rfl


theorem mem_driverCalls (c : DriverCall) (t : List Event) :
    c ∈ driverCalls t ↔ Event.call c ∈ t := by
  induction t with
  | nil => simp [driverCalls]
  | cons e rest ih =>
    cases e <;> simp [driverCalls, ih]

theorem driverCalls_append (s t : List Event) :
    driverCalls (s ++ t) = driverCalls s ++ driverCalls t := by
  induction s with
  | nil => rfl
  | cons e rest ih =>
    cases e <;> simp [driverCalls, ih]

theorem loopEvent_not_startup {e : Event} (h : isLoopEvent e = true) :
    (∀ c, e = Event.call c → startupRank c = none) ∧
      (∀ hi, e ≠ Event.printHealthInfo hi) ∧
      e ∉ cleanup := by
  cases e with
  | call c => cases c <;> simp_all [isLoopEvent, startupRank, cleanup]
  | _ => simp_all [isLoopEvent, cleanup]

theorem session_fail_fast (sdk : Sdk) (w : World) (p : String) (b : Int) (fuel : Nat)
    (r : List Event × Int) (i : Nat) (hr : session sdk w p b fuel = some r)
    (hfail : StepFails sdk r.1 i) :
    r.2 = EXIT_FAILURE ∧
    (∀ c, Event.call c ∈ r.1 → ∀ j, startupRank c = some j → j ≤ i) ∧
    (∀ n x, Event.call (.grabScanDataHq n x) ∉ r.1) ∧
    (i = 2 → ∀ x, Event.call (.startMotor x) ∉ r.1) ∧
    (∀ fuel', session sdk w p b fuel' = some r) := by
  simp only [session] at hr ⊢
  split_ifs at hr with h1 h2 h3 h4 h5 h6
  · simp only [Option.some.injEq] at hr
    subst hr
    simp [StepFails, startupRank, opResult, *] at hfail ⊢
  · simp only [Option.some.injEq] at hr
    subst hr
    simp [StepFails, startupRank, opResult, *] at hfail ⊢
    omega
  · simp only [Option.some.injEq] at hr
    subst hr
    simp [StepFails, startupRank, opResult, *] at hfail ⊢
    omega
  · simp only [Option.some.injEq] at hr
    subst hr
    simp [StepFails, startupRank, opResult, *] at hfail ⊢
    omega
  · simp only [Option.some.injEq] at hr
    subst hr
    rw [beq_iff_eq] at h4
    simp [StepFails, startupRank, opResult, *] at hfail ⊢
    omega
  · simp only [Option.some.injEq] at hr
    subst hr
    rw [beq_iff_eq] at h4
    simp [StepFails, startupRank, opResult, *] at hfail ⊢
    omega
  · exfalso
    rw [beq_iff_eq] at h4
    simp only [Option.map_eq_some'] at hr
    obtain ⟨loop, hloop, rfl⟩ := hr
    have hev := (acquire_events sdk w fuel _ _ _ _ hloop).1
    rcases hfail with ⟨c, x, hmem, hrank, hres, hx⟩ | ⟨-, h, hmem, hst⟩
    · simp only [List.mem_append, List.mem_cons, List.mem_singleton, List.not_mem_nil,
        or_false, Event.call.injEq, reduceCtorEq, false_or, or_false] at hmem
      rcases hmem with ((((rfl | rfl) | rfl) | rfl) | rfl) | hmem
      · simp only [opResult, Option.some.injEq] at hres
        exact h1 (hres ▸ hx)
      · simp only [opResult, Option.some.injEq] at hres
        exact h2 (hres ▸ hx)
      · simp only [opResult, Option.some.injEq] at hres
        exact h3 (hres ▸ hx)
      · simp only [opResult, Option.some.injEq] at hres
        exact h5 (hres ▸ hx)
      · simp only [opResult, Option.some.injEq] at hres
        exact h6 (hres ▸ hx)
      · have := (loopEvent_not_startup (hev _ hmem)).1 c rfl
        rw [this] at hrank
        cases hrank
    · simp only [List.mem_append, List.mem_cons, List.mem_singleton, List.not_mem_nil,
        or_false, Event.printHealthInfo.injEq, reduceCtorEq, false_or, or_false] at hmem
      rcases hmem with rfl | hmem
      · exact h4 hst
      · exact (loopEvent_not_startup (hev _ hmem)).2.1 h rfl



theorem session_events (sdk : Sdk) (w : World) (p : String) (b : Int) (fuel : Nat)
    (r : List Event × Int) (hr : session sdk w p b fuel = some r) :
    (∀ e ∈ r.1, e ∉ cleanup) ∧ LoopEnds sdk r.1 := by
  simp only [session] at hr
  split_ifs at hr with h1 h2 h3 h4 h5 h6
  · simp only [Option.some.injEq] at hr
    subst hr
    exact ⟨by simp [cleanup], Or.inl (by simp [isFailedFetch])⟩
  · simp only [Option.some.injEq] at hr
    subst hr
    exact ⟨by simp [cleanup], Or.inl (by simp [isFailedFetch])⟩
  · simp only [Option.some.injEq] at hr
    subst hr
    exact ⟨by simp [cleanup], Or.inl (by simp [isFailedFetch])⟩
  · simp only [Option.some.injEq] at hr
    subst hr
    exact ⟨by simp [cleanup], Or.inl (by simp [isFailedFetch])⟩
  · simp only [Option.some.injEq] at hr
    subst hr
    exact ⟨by simp [cleanup], Or.inl (by simp [isFailedFetch])⟩
  · simp only [Option.some.injEq] at hr
    subst hr
    exact ⟨by simp [cleanup], Or.inl (by simp [isFailedFetch])⟩
  · simp only [Option.map_eq_some'] at hr
    obtain ⟨loop, hloop, rfl⟩ := hr
    obtain ⟨hev, hend⟩ := acquire_events sdk w fuel _ _ _ _ hloop
    constructor
    · intro e he
      simp only [List.append_assoc, List.cons_append, List.nil_append, List.mem_cons] at he
      rcases he with rfl | rfl | rfl | rfl | rfl | rfl | rfl | rfl | rfl | he
      all_goals first
        | exact (loopEvent_not_startup (hev e he)).2.2
        | simp [cleanup]
    · exact LoopEnds.prepend (by simp [isFailedFetch]) hend

theorem acquire_terminates (sdk : Sdk) (w : World) (j : Nat) :
    ∀ (k : Nat) (buf : Nat → rplidar_response_measurement_node_hq_t) (n : Nat),
      w.gSigintHandled (k + j) = true → ∃ evs, acquire sdk w (j + 1) k buf n = some evs := by
  induction j with
  | zero =>
    intro k buf n h
    exact ⟨[], by simp [acquire, show w.gSigintHandled k = true from h]⟩
  | succ j ih =>
    intro k buf n h
    rw [acquire]
    by_cases hs : w.gSigintHandled k = true
    · exact ⟨[], by simp [hs]⟩
    · by_cases hfail : sdk.IS_FAIL (w.grabScanDataHq k buf n).1 = true
      · simp only [hs, hfail, Bool.false_eq_true, if_true, if_false]
        exact ⟨_, rfl⟩
      · have hk : w.gSigintHandled (k + 1 + j) = true := by
          rw [show k + 1 + j = k + (j + 1) by omega]
          exact h
        obtain ⟨evs, hevs⟩ := ih (k + 1)
          (w.ascendScanData k (w.grabScanDataHq k buf n).2.1 (w.grabScanDataHq k buf n).2.2).2
          (w.grabScanDataHq k buf n).2.2 hk
        simp only [hs, hfail, Bool.false_eq_true, if_false, hevs, Option.map_some']
        exact ⟨_, rfl⟩

theorem session_terminates (sdk : Sdk) (w : World) (p : String) (b : Int) (k : Nat)
    (h : w.gSigintHandled k = true) : ∃ r, session sdk w p b (k + 1) = some r := by
  obtain ⟨evs, hevs⟩ :=
    acquire_terminates sdk w k 0 w.measuredNodes sdk.MAX_SCAN_NODES (by simpa using h)
  simp only [session, hevs, Option.map_some']
  split_ifs <;> exact ⟨_, rfl⟩

theorem acquire_mono (sdk : Sdk) (w : World) (fuel : Nat) :
    ∀ (k : Nat) (buf : Nat → rplidar_response_measurement_node_hq_t) (n : Nat)
      (evs : List Event), acquire sdk w fuel k buf n = some evs →
      acquire sdk w (fuel + 1) k buf n = some evs := by
  induction fuel with
  | zero => intro k buf n evs h; simp [acquire] at h
  | succ f ih =>
    intro k buf n evs h
    rw [acquire] at h ⊢
    by_cases hs : w.gSigintHandled k = true
    · simpa only [hs, if_true] using h
    · by_cases hfail : sdk.IS_FAIL (w.grabScanDataHq k buf n).1 = true
      · simpa only [hs, hfail, Bool.false_eq_true, if_true, if_false] using h
      · simp only [hs, hfail, Bool.false_eq_true, if_false, Option.map_eq_some'] at h ⊢
        obtain ⟨rest, hrest, rfl⟩ := h
        exact ⟨rest, ih _ _ _ _ hrest, rfl⟩

theorem mainFrom_session (sdk : Sdk) (w : World) (p : String) (b : Int) (fuel : Nat)
    (hb : b ∈ availableBaudrates) (hc : w.CreateDriver = true) :
    mainFrom sdk w p b fuel =
      (session sdk w p b fuel).map fun r =>
        ⟨.call (.CreateDriver sdk.DRIVER_TYPE_SERIALPORT) :: (r.1 ++ cleanup),
          .returned r.2⟩ := by
  simp [mainFrom, hb, hc]

theorem mainFrom_early (sdk : Sdk) (w : World) (p : String) (b : Int) (fuel fuel' : Nat)
    (h : b ∉ availableBaudrates ∨ w.CreateDriver = false) :
    mainFrom sdk w p b fuel = mainFrom sdk w p b fuel' := by
  by_cases hb : b ∉ availableBaudrates
  · simp only [mainFrom, hb, not_false_eq_true, if_true]
  · have hc : w.CreateDriver = false := h.resolve_left hb
    simp only [mainFrom, hb, hc, if_false, Bool.not_false, if_true]

theorem session_mono (sdk : Sdk) (w : World) (p : String) (b : Int) (fuel : Nat)
    (r : List Event × Int) (hr : session sdk w p b fuel = some r) :
    session sdk w p b (fuel + 1) = some r := by
  simp only [session] at hr ⊢
  split_ifs at hr ⊢
  · exact hr
  · exact hr
  · exact hr
  · exact hr
  · exact hr
  · exact hr
  · simp only [Option.map_eq_some'] at hr ⊢
    obtain ⟨loop, hloop, rfl⟩ := hr
    exact ⟨loop, acquire_mono sdk w fuel _ _ _ _ hloop, rfl⟩

theorem main_mono (sdk : Sdk) (w : World) (argv : List String) (fuel : Nat) (run : Run)
    (h : main sdk w argv fuel = some run) : main sdk w argv (fuel + 1) = some run := by
  unfold main at h ⊢
  cases hp : parseArgs argv with
  | error e => simpa only [hp] using h
  | ok pb =>
    obtain ⟨p, b⟩ := pb
    simp only [hp] at h ⊢
    by_cases hearly : b ∉ availableBaudrates ∨ w.CreateDriver = false
    · rw [← mainFrom_early sdk w p b fuel (fuel + 1) hearly]
      exact h
    · have hb : b ∈ availableBaudrates := by
        by_contra hb
        exact hearly (Or.inl hb)
      have hc : w.CreateDriver = true := by
        cases hcd : w.CreateDriver
        · exact absurd (Or.inr hcd) hearly
        · rfl
      rw [mainFrom_session sdk w p b _ hb hc] at h ⊢
      simp only [Option.map_eq_some'] at h ⊢
      obtain ⟨r, hr, rfl⟩ := h
      exact ⟨r, session_mono sdk w p b fuel r hr, rfl⟩

theorem main_mono_le (sdk : Sdk) (w : World) (argv : List String) (fuel fuel' : Nat)
    (run : Run) (h : main sdk w argv fuel = some run) (hle : fuel ≤ fuel') :
    main sdk w argv fuel' = some run := by
  induction hle with
  | refl => exact h
  | step _ ih => exact main_mono sdk w argv _ run ih


theorem main_terminates (sdk : Sdk) (w : World) (argv : List String) (k : Nat)
    (h : w.gSigintHandled k = true) : ∃ run, main sdk w argv (k + 1) = some run := by
  unfold main
  cases hp : parseArgs argv with
  | error e => exact ⟨_, rfl⟩
  | ok pb =>
    obtain ⟨p, b⟩ := pb
    simp only [mainFrom]
    obtain ⟨r, hr⟩ := session_terminates sdk w p b k h
    rw [hr]
    split_ifs <;> exact ⟨_, rfl⟩

theorem main_cases (sdk : Sdk) (w : World) (argv : List String) (fuel : Nat)
    (run : Run) (hrun : main sdk w argv fuel = some run) :
    (∀ c, Event.call c ∉ run.trace) ∨
    (w.CreateDriver = false ∧
      run.trace = [.call (.CreateDriver sdk.DRIVER_TYPE_SERIALPORT),
        .cerr "RPlidarDriver::CreateDriver() failed\n"]) ∨
    (w.CreateDriver = true ∧ ∃ p b r, session sdk w p b fuel = some r ∧
      run = ⟨.call (.CreateDriver sdk.DRIVER_TYPE_SERIALPORT) :: (r.1 ++ cleanup),
        .returned r.2⟩) := by
  unfold main at hrun
  cases hp : parseArgs argv with
  | error e =>
    simp only [hp, Option.some.injEq] at hrun
    subst hrun
    exact Or.inl (by simp)
  | ok pb =>
    obtain ⟨p, b⟩ := pb
    simp only [hp] at hrun
    by_cases hb : b ∉ availableBaudrates
    · simp only [mainFrom, hb, not_false_eq_true, if_true, Option.some.injEq] at hrun
      subst hrun
      exact Or.inl (by simp)
    · by_cases hc : w.CreateDriver = false
      · simp only [mainFrom, hb, hc, if_false, Bool.not_false, if_true,
          Option.some.injEq] at hrun
        subst hrun
        exact Or.inr (Or.inl ⟨hc, rfl⟩)
      · have hc' : w.CreateDriver = true := by simpa using hc
        simp only [mainFrom, hb, hc', if_false, Bool.not_true, Bool.false_eq_true,
          Option.map_eq_some'] at hrun
        obtain ⟨r, hr, rfl⟩ := hrun
        exact Or.inr (Or.inr ⟨hc', p, b, r, hr, rfl⟩)

theorem driverCalls_cleanup :
    driverCalls cleanup = [.stop, .stopMotor, .disconnect, .DisposeDriver] := rfl

theorem StepFails_of_wrapped {sdk : Sdk} {t : List Event} {i : Nat} {ty : U32}
    (h : StepFails sdk (Event.call (.CreateDriver ty) :: (t ++ cleanup)) i) :
    StepFails sdk t i := by
  rcases h with ⟨c, x, hmem, hrank, hres, hx⟩ | ⟨hi, h, hmem, hst⟩
  · left
    refine ⟨c, x, ?_, hrank, hres, hx⟩
    simp only [cleanup, List.mem_cons, List.mem_append, Event.call.injEq, List.mem_singleton,
      List.not_mem_nil, or_false] at hmem
    rcases hmem with rfl | hmem | rfl | rfl | rfl | rfl
    · simp [startupRank] at hrank
    · exact hmem
    · simp [startupRank] at hrank
    · simp [startupRank] at hrank
    · simp [startupRank] at hrank
    · simp [startupRank] at hrank
  · right
    refine ⟨hi, h, ?_, hst⟩
    simpa [cleanup] using hmem

theorem StepFails_wrapped {sdk : Sdk} {t : List Event} {i : Nat} (ty : U32)
    (h : StepFails sdk t i) :
    StepFails sdk (Event.call (.CreateDriver ty) :: (t ++ cleanup)) i := by
  rcases h with ⟨c, x, hmem, hrank, hres, hx⟩ | ⟨hi, h, hmem, hst⟩
  · exact Or.inl ⟨c, x, by simp [hmem], hrank, hres, hx⟩
  · exact Or.inr ⟨hi, h, by simp [hmem], hst⟩

theorem session_of_not_startupOk (sdk : Sdk) (w : World) (p : String) (b : Int)
    (h : startupOk sdk w p b = false) (fuel : Nat) :
    ∃ r i, session sdk w p b fuel = some r ∧ StepFails sdk r.1 i ∧ r.2 = EXIT_FAILURE := by
  simp only [session]
  split_ifs with h1 h2 h3 h4 h5 h6
  · exact ⟨_, 0, rfl, Or.inl ⟨.connect p (static_cast_u32 b) (w.connect p (static_cast_u32 b)),
      _, by simp, rfl, rfl, h1⟩, rfl⟩
  · exact ⟨_, 1, rfl, Or.inl ⟨.getDeviceInfo w.getDeviceInfo.1, _, by simp, rfl, rfl, h2⟩, rfl⟩
  · exact ⟨_, 2, rfl, Or.inl ⟨.getHealth w.getHealth.1, _, by simp, rfl, rfl, h3⟩, rfl⟩
  · exact ⟨_, 2, rfl, Or.inr ⟨rfl, w.getHealth.2, by simp, by simpa using h4⟩, rfl⟩
  · exact ⟨_, 3, rfl, Or.inl ⟨.startMotor w.startMotor, _, by simp, rfl, rfl, h5⟩, rfl⟩
  · exact ⟨_, 4, rfl, Or.inl ⟨.startScan false true 0 w.startScan.1, _, by simp, rfl, rfl,
      h6⟩, rfl⟩
  · exfalso
    simp [startupOk, h1, h2, h3, h4, h5, h6] at h

theorem acquire_of_fetch_fails (sdk : Sdk) (w : World) (j : Nat) :
    ∀ (k : Nat) (buf : Nat → rplidar_response_measurement_node_hq_t) (n : Nat),
      (∀ i, i ≤ j → w.gSigintHandled (k + i) = false) →
      sdk.IS_FAIL (w.grabScanDataHq (k + j) (loopStateAfter w j k buf n).1
        (loopStateAfter w j k buf n).2).1 = true →
      ∃ evs, acquire sdk w (j + 1) k buf n = some evs ∧
        ∃ e ∈ evs, isFailedFetch sdk e = true := by
  induction j with
  | zero =>
    intro k buf n hsig hfail
    have hs : w.gSigintHandled k = false := by simpa using hsig 0 (Nat.le_refl 0)
    simp only [loopStateAfter, Nat.add_zero] at hfail
    refine ⟨[.call (.grabScanDataHq n (w.grabScanDataHq k buf n).1),
      .cerr "RPlidarDriver::grabScanDataHq() failed\n"], ?_,
      .call (.grabScanDataHq n (w.grabScanDataHq k buf n).1), by simp, hfail⟩
    simp only [acquire, hs, hfail, Bool.false_eq_true, if_true, if_false]
  | succ j ih =>
    intro k buf n hsig hfail
    have hs : w.gSigintHandled k = false := by simpa using hsig 0 (Nat.zero_le _)
    by_cases hf : sdk.IS_FAIL (w.grabScanDataHq k buf n).1 = true
    · refine ⟨[.call (.grabScanDataHq n (w.grabScanDataHq k buf n).1),
        .cerr "RPlidarDriver::grabScanDataHq() failed\n"], ?_,
        .call (.grabScanDataHq n (w.grabScanDataHq k buf n).1), by simp, hf⟩
      rw [acquire]
      simp only [hs, hf, Bool.false_eq_true, if_true, if_false]
    · have hsig' : ∀ i, i ≤ j → w.gSigintHandled (k + 1 + i) = false := by
        intro i hi
        have := hsig (i + 1) (by omega)
        rwa [show k + (i + 1) = k + 1 + i by omega] at this
      have hfail' : sdk.IS_FAIL (w.grabScanDataHq (k + 1 + j)
          (loopStateAfter w j (k + 1)
            (w.ascendScanData k (w.grabScanDataHq k buf n).2.1
              (w.grabScanDataHq k buf n).2.2).2 (w.grabScanDataHq k buf n).2.2).1
          (loopStateAfter w j (k + 1)
            (w.ascendScanData k (w.grabScanDataHq k buf n).2.1
              (w.grabScanDataHq k buf n).2.2).2 (w.grabScanDataHq k buf n).2.2).2).1
          = true := by
        rw [show k + 1 + j = k + (j + 1) by omega]
        simpa only [loopStateAfter] using hfail
      obtain ⟨evs, hevs, e, he, hef⟩ := ih (k + 1) _ _ hsig' hfail'
      rw [acquire]
      simp only [hs, hf, Bool.false_eq_true, if_false, hevs, Option.map_some']
      exact ⟨_, rfl, e, by simp [he], hef⟩

theorem main_of_fetch_fails (sdk : Sdk) (w : World) (argv : List String) (p : String)
    (b : Int) (k : Nat) (hp : parseArgs argv = .ok (p, b)) (hb : b ∈ availableBaudrates)
    (hc : w.CreateDriver = true) (hok : startupOk sdk w p b = true)
    (hsig : ∀ i, i ≤ k → w.gSigintHandled i = false)
    (hfail : sdk.IS_FAIL (fetchResultAt sdk w k) = true) :
    ∃ run, main sdk w argv (k + 1) = some run ∧
      ∃ e ∈ run.trace, isFailedFetch sdk e = true := by
  obtain ⟨evs, hevs, e, he, hef⟩ :=
    acquire_of_fetch_fails sdk w k 0 w.measuredNodes sdk.MAX_SCAN_NODES
      (by intro i hi; simpa using hsig i hi) (by simpa [fetchResultAt] using hfail)
  simp only [startupOk, Bool.and_eq_true, Bool.not_eq_true', beq_eq_false_iff_ne] at hok
  obtain ⟨⟨⟨⟨⟨h1, h2⟩, h3⟩, h4⟩, h5⟩, h6⟩ := hok
  have h4' : (w.getHealth.2.status == sdk.RPLIDAR_STATUS_ERROR) = false := by
    simpa using h4
  simp only [main, hp, mainFrom_session sdk w p b _ hb hc, session, hevs, h1, h2,
    h3, h4', h5, h6, Bool.false_eq_true, if_false, Option.map_some']
  exact ⟨_, rfl, e, by simp [he], hef⟩

theorem main_of_not_startupOk (sdk : Sdk) (w : World) (argv : List String) (p : String)
    (b : Int) (hp : parseArgs argv = .ok (p, b)) (hb : b ∈ availableBaudrates)
    (hc : w.CreateDriver = true) (hok : startupOk sdk w p b = false) (fuel : Nat) :
    ∃ run i, main sdk w argv fuel = some run ∧ StepFails sdk run.trace i := by
  obtain ⟨r, i, hr, hsf, -⟩ := session_of_not_startupOk sdk w p b hok fuel
  simp only [main, hp, mainFrom_session sdk w p b _ hb hc, hr, Option.map_some']
  exact ⟨_, i, rfl, StepFails_wrapped sdk.DRIVER_TYPE_SERIALPORT hsf⟩

theorem main_fail_fast (sdk : Sdk) (w : World) (argv : List String) (fuel : Nat)
    (run : Run) (i : Nat) (hrun : main sdk w argv fuel = some run)
    (hfail : StepFails sdk run.trace i) :
    run.ending = .returned EXIT_FAILURE ∧
    (∀ c ∈ driverCalls run.trace, ∀ j, startupRank c = some j → j ≤ i) ∧
    (∀ n r, DriverCall.grabScanDataHq n r ∉ driverCalls run.trace) ∧
    (i = 2 → ∀ r, DriverCall.startMotor r ∉ driverCalls run.trace) ∧
    (∀ fuel', main sdk w argv fuel' = some run) := by
  unfold main at hrun
  unfold main
  cases hp : parseArgs argv with
  | error e =>
    simp only [hp, Option.some.injEq] at hrun
    subst hrun
    simp [StepFails] at hfail
  | ok pb =>
    obtain ⟨p, b⟩ := pb
    simp only [hp] at hrun ⊢
    by_cases hb : b ∉ availableBaudrates
    · simp only [mainFrom, hb, not_false_eq_true, if_true, Option.some.injEq] at hrun
      subst hrun
      simp [StepFails, startupRank] at hfail
    · by_cases hc : w.CreateDriver = false
      · simp only [mainFrom, hb, hc, if_false, Bool.not_false, if_true,
          Option.some.injEq] at hrun
        subst hrun
        simp [StepFails, startupRank] at hfail
      · have hc' : w.CreateDriver = true := by simpa using hc
        simp only [mainFrom, hb, hc', if_false, Bool.not_true, Bool.false_eq_true,
          Option.map_eq_some'] at hrun ⊢
        obtain ⟨r, hr, rfl⟩ := hrun
        obtain ⟨h1, h2, h3, h4, h5⟩ :=
          session_fail_fast sdk w p b fuel r i hr (StepFails_of_wrapped hfail)
        refine ⟨by rw [h1], ?_, ?_, ?_, ?_⟩
        · intro c hcm j hj
          rw [mem_driverCalls] at hcm
          simp only [cleanup, List.mem_cons, List.mem_append, Event.call.injEq,
            List.mem_singleton, List.not_mem_nil, or_false] at hcm
          rcases hcm with rfl | hcm | rfl | rfl | rfl | rfl
          · simp [startupRank] at hj
          · exact h2 c hcm j hj
          · simp [startupRank] at hj
          · simp [startupRank] at hj
          · simp [startupRank] at hj
          · simp [startupRank] at hj
        · intro n x hm
          rw [mem_driverCalls] at hm
          simp only [cleanup, List.mem_cons, List.mem_append, Event.call.injEq,
            List.mem_singleton, List.not_mem_nil, or_false, reduceCtorEq, false_or] at hm
          exact h3 n x hm
        · intro hi x hm
          rw [mem_driverCalls] at hm
          simp only [cleanup, List.mem_cons, List.mem_append, Event.call.injEq,
            List.mem_singleton, List.not_mem_nil, or_false, reduceCtorEq, false_or] at hm
          exact h4 hi x hm
        · intro fuel'
          exact ⟨r, h5 fuel', rfl⟩

theorem main_failed_fetch (sdk : Sdk) (w : World) (argv : List String) (fuel : Nat)
    (run : Run) (hrun : main sdk w argv fuel = some run)
    (hfail : ∃ e ∈ run.trace, isFailedFetch sdk e = true) :
    ∃ pre n r, sdk.IS_FAIL r = true ∧
      run.trace = pre ++ [.call (.grabScanDataHq n r),
        .cerr "RPlidarDriver::grabScanDataHq() failed\n",
        .call .stop, .call .stopMotor, .call .disconnect, .call .DisposeDriver] ∧
      ∀ e ∈ pre, isFailedFetch sdk e = false ∧ e ∉ cleanup := by
  obtain ⟨e, he, hef⟩ := hfail
  rcases main_cases sdk w argv fuel run hrun with hnone | ⟨-, ht⟩ | ⟨-, p, b, r, hr, rfl⟩
  · cases e with
    | call c => exact absurd he (hnone c)
    | _ => simp [isFailedFetch] at hef
  · rw [ht] at he
    simp only [List.mem_cons, List.mem_singleton, List.not_mem_nil, or_false] at he
    rcases he with rfl | rfl <;> simp [isFailedFetch] at hef
  · obtain ⟨hev, hend⟩ := session_events sdk w p b fuel r hr
    rcases hend with hnone | ⟨pre, n, x, hx, hpre, hnf⟩
    · exfalso
      simp only [List.mem_cons, List.mem_append] at he
      rcases he with rfl | he | he
      · simp [isFailedFetch] at hef
      · rw [hnone e he] at hef
        cases hef
      · simp only [cleanup, List.mem_cons, List.mem_singleton, List.not_mem_nil,
          or_false] at he
        rcases he with rfl | rfl | rfl | rfl <;> simp [isFailedFetch] at hef
    · refine ⟨.call (.CreateDriver sdk.DRIVER_TYPE_SERIALPORT) :: pre, n, x, hx, ?_, ?_⟩
      · simp [hpre, cleanup]
      · intro e' he'
        simp only [List.mem_cons] at he'
        rcases he' with rfl | he'
        · exact ⟨rfl, by simp [cleanup]⟩
        · exact ⟨hnf e' he', hev e' (by rw [hpre]; simp [he'])⟩

/-! ## Theorems on `PrintRPlidarDeviceInfo` -/

/-- C5: for every 16-bit firmware version and every stream state, the text that
`PrintRPlidarDeviceInfo` writes after its 32 serial-number characters is the line
"Firmware version: " followed by the decimal numeral of the high byte, a dot and the
decimal numeral of the low byte zero-padded to two digits (then the hardware version
line), although the serial number just before was printed in hexadecimal; 0x0102
renders as "1.02" and 0x000A as "0.10", as the whole output for a sample device on the
initial state of `std::cout` shows. -/
theorem firmware_version_rendered_in_decimal :
    (∀ (info : rplidar_response_device_info_t) (os : OStream),
      ∃ serial : List Char, serial.length = 32 ∧
        (PrintRPlidarDeviceInfo info os).out =
          os.out ++ os.padded "Serial number: ".toList ++ serial ++
            "\nFirmware version: ".toList ++
            (firmwareVersionText info.firmware_version).toList ++
            "\nHardware version: ".toList ++ (Nat.repr info.hardware_version.val).toList ++
            "\n".toList) ∧
    (∀ v : U16, firmwareVersionText v =
      Nat.repr (v.val >>> 8) ++ "." ++
        (if (Nat.repr (v.val &&& 0xFF)).length < 2 then "0" ++ Nat.repr (v.val &&& 0xFF)
         else Nat.repr (v.val &&& 0xFF))) ∧
    firmwareVersionText 0x0102 = "1.02" ∧ firmwareVersionText 0x000A = "0.10" ∧
    String.mk (PrintRPlidarDeviceInfo healthyWorld.getDeviceInfo.2 coutInit).out =
      "Serial number: 00112233445566778899AABBCCDDEEFF\nFirmware version: 1.02\n" ++
        "Hardware version: 5\n" := by
  refine ⟨fun info os => ⟨(List.ofFn info.serialnum).flatMap hexPair, ?_, ?_⟩,
    fun v => rfl, by decide, by decide, by decide⟩
  · rw [length_flatMap_hexPair, List.length_ofFn]
  · exact PrintRPlidarDeviceInfo_out info os

/-- C7: for every serial number and every stream state, `PrintRPlidarDeviceInfo` writes,
right after "Serial number: " and before the line break, exactly two characters per
byte (32 in all), each one of 0-9 and A-F, and the pair at positions 2i and 2i+1 read as
a base-16 numeral is byte i of the serial number. -/
theorem serial_number_uppercase_hex_pairs (info : rplidar_response_device_info_t)
    (os : OStream) :
    ∃ serial rest : List Char,
      (PrintRPlidarDeviceInfo info os).out =
        os.out ++ os.padded "Serial number: ".toList ++ serial ++ '\n' :: rest ∧
      serial.length = 2 * 16 ∧
      (∀ c ∈ serial, c ∈ "0123456789ABCDEF".toList) ∧
      ∀ i : Fin 16, ∃ hi lo : Char,
        serial[2 * i.val]? = some hi ∧ serial[2 * i.val + 1]? = some lo ∧
          readHexPair hi lo = some (info.serialnum i).val := by
  refine ⟨(List.ofFn info.serialnum).flatMap hexPair,
    "Firmware version: ".toList ++ (firmwareVersionText info.firmware_version).toList ++
      "\nHardware version: ".toList ++ (Nat.repr info.hardware_version.val).toList ++
      "\n".toList, ?_, ?_, ?_, ?_⟩
  · rw [PrintRPlidarDeviceInfo_out]
    simp [List.append_assoc]
  · rw [length_flatMap_hexPair, List.length_ofFn]
  · exact fun c hc => mem_flatMap_hexPair _ c hc
  · intro i
    have hi : i.val < (List.ofFn info.serialnum).length := by simp
    obtain ⟨h1, h2⟩ := getElem?_flatMap_hexPair (List.ofFn info.serialnum) i.val hi
    refine ⟨_, _, h1, h2, ?_⟩
    rw [readHexPair_hexPair, List.get_eq_getElem, List.getElem_ofFn]

/-! ## Theorems on `main` -/

/-- C1: for every integer baud rate other than 115200 and 256000, `main` (from the
point where the baud rate is known, and hence on every command line that yields this
baud rate) returns the failure status and its trace holds no driver call at all. -/
theorem unsupported_baud_rate_is_rejected (sdk : Sdk) (w : World) (portName : String)
    (comBaudrate : Int) (fuel : Nat)
    (h1 : comBaudrate ≠ 115200) (h2 : comBaudrate ≠ 256000) :
    (∃ run, mainFrom sdk w portName comBaudrate fuel = some run ∧
      run.ending = .returned EXIT_FAILURE ∧ driverCalls run.trace = []) ∧
    ∀ argv, parseArgs argv = .ok (portName, comBaudrate) →
      ∃ run, main sdk w argv fuel = some run ∧
        run.ending = .returned EXIT_FAILURE ∧ driverCalls run.trace = [] := by
  have hb : comBaudrate ∉ availableBaudrates := by simp [availableBaudrates, h1, h2]
  have key : ∃ run, mainFrom sdk w portName comBaudrate fuel = some run ∧
      run.ending = .returned EXIT_FAILURE ∧ driverCalls run.trace = [] := by
    simp only [mainFrom, hb, not_false_eq_true, if_true]
    exact ⟨_, rfl, rfl, rfl⟩
  refine ⟨key, fun argv hp => ?_⟩
  simp only [main, hp]
  exact key

theorem unsupported_baud_rate_is_rejected_witness :
    (9600 : Int) ≠ 115200 ∧ (9600 : Int) ≠ 256000 ∧
    parseArgs ["rplidar-scan", "/dev/ttyUSB0", "9600"] = .ok ("/dev/ttyUSB0", 9600) ∧
    ∃ run, main vendorSdk healthyWorld ["rplidar-scan", "/dev/ttyUSB0", "9600"] 0 = some run ∧
      run.ending = .returned EXIT_FAILURE ∧ driverCalls run.trace = [] :=
  ⟨by decide, by decide, rfl,
    (unsupported_baud_rate_is_rejected vendorSdk healthyWorld "/dev/ttyUSB0" 9600 0
      (by decide) (by decide)).2 _ rfl⟩

/-- C2: in every run in which a startup step fails the exit status is the failure
status, no startup step later than the failed one is called, no fetch is issued, and
the acquisition loop is never entered (the run is the same for any amount of loop
fuel); when the failed step is the health check, `startMotor` is never called.  And
such runs do finish: once the handle is acquired and the startup is not entirely
successful, `main` returns, for any amount of loop fuel, one and the same run, in which
a startup step fails, with the failure status and without any fetch. -/
theorem startup_is_fail_fast (sdk : Sdk) (w : World) (argv : List String) :
    (∀ fuel run i, main sdk w argv fuel = some run → StepFails sdk run.trace i →
      run.ending = .returned EXIT_FAILURE ∧
      (∀ c ∈ driverCalls run.trace, ∀ j, startupRank c = some j → j ≤ i) ∧
      (∀ n r, DriverCall.grabScanDataHq n r ∉ driverCalls run.trace) ∧
      (i = 2 → ∀ r, DriverCall.startMotor r ∉ driverCalls run.trace) ∧
      (∀ fuel', main sdk w argv fuel' = some run)) ∧
    (∀ p b, parseArgs argv = .ok (p, b) → b ∈ availableBaudrates →
      w.CreateDriver = true → startupOk sdk w p b = false →
      ∃ run i, (∀ fuel, main sdk w argv fuel = some run) ∧
        StepFails sdk run.trace i ∧
        run.ending = .returned EXIT_FAILURE ∧
        (∀ c ∈ driverCalls run.trace, ∀ j, startupRank c = some j → j ≤ i) ∧
        (∀ n r, DriverCall.grabScanDataHq n r ∉ driverCalls run.trace) ∧
        (i = 2 → ∀ r, DriverCall.startMotor r ∉ driverCalls run.trace)) := by
  refine ⟨fun fuel run i hrun hfail => main_fail_fast sdk w argv fuel run i hrun hfail, ?_⟩
  intro p b hp hb hc hok
  obtain ⟨run, i, hrun, hsf⟩ := main_of_not_startupOk sdk w argv p b hp hb hc hok 0
  obtain ⟨h1, h2, h3, h4, h5⟩ := main_fail_fast sdk w argv 0 run i hrun hsf
  exact ⟨run, i, h5, hsf, h1, h2, h3, h4⟩

theorem startup_is_fail_fast_witness :
    main vendorSdk faultyWorld ["rplidar-scan"] 0 = some faultyRun ∧
    StepFails vendorSdk faultyRun.trace 2 ∧
    (faultyRun.ending = .returned EXIT_FAILURE ∧
      (∀ c ∈ driverCalls faultyRun.trace, ∀ j, startupRank c = some j → j ≤ 2) ∧
      (∀ n r, DriverCall.grabScanDataHq n r ∉ driverCalls faultyRun.trace) ∧
      (2 = 2 → ∀ r, DriverCall.startMotor r ∉ driverCalls faultyRun.trace) ∧
      (∀ fuel', main vendorSdk faultyWorld ["rplidar-scan"] fuel' = some faultyRun)) ∧
    parseArgs ["rplidar-scan"] = .ok ("/dev/ttyUSB0", 115200) ∧
    (115200 : Int) ∈ availableBaudrates ∧
    faultyWorld.CreateDriver = true ∧
    startupOk vendorSdk faultyWorld "/dev/ttyUSB0" 115200 = false ∧
    (∃ run i, (∀ fuel, main vendorSdk faultyWorld ["rplidar-scan"] fuel = some run) ∧
      StepFails vendorSdk run.trace i ∧
      run.ending = .returned EXIT_FAILURE ∧
      (∀ c ∈ driverCalls run.trace, ∀ j, startupRank c = some j → j ≤ i) ∧
      (∀ n r, DriverCall.grabScanDataHq n r ∉ driverCalls run.trace) ∧
      (i = 2 → ∀ r, DriverCall.startMotor r ∉ driverCalls run.trace)) :=
  ⟨rfl, Or.inr ⟨rfl, faultyWorld.getHealth.2, by simp [faultyRun], rfl⟩,
    (startup_is_fail_fast vendorSdk faultyWorld ["rplidar-scan"]).1 0 faultyRun 2 rfl
      (Or.inr ⟨rfl, faultyWorld.getHealth.2, by simp [faultyRun], rfl⟩),
    rfl, by decide, rfl, rfl,
    (startup_is_fail_fast vendorSdk faultyWorld ["rplidar-scan"]).2
      "/dev/ttyUSB0" 115200 rfl (by decide) rfl rfl⟩

/-- C3: in every run in which the driver handle is acquired, the driver calls end with
`stop`, `stopMotor`, `disconnect`, `DisposeDriver` in this order and none of the four
occurs earlier, so each is invoked exactly once and nothing follows them; when startup
succeeds and the interrupt flag is set at the first check of the loop, `main` returns
the success status after the startup calls and the four cleanup calls, without any
fetch; and whenever the interrupt flag is eventually seen set, `main` does return. -/
theorem cleanup_runs_once_in_order (sdk : Sdk) (w : World) (argv : List String) :
    (∀ fuel run ty, main sdk w argv fuel = some run →
      DriverCall.CreateDriver ty ∈ driverCalls run.trace → w.CreateDriver = true →
      ∃ pre, driverCalls run.trace =
          pre ++ [.stop, .stopMotor, .disconnect, .DisposeDriver] ∧
        DriverCall.stop ∉ pre ∧ DriverCall.stopMotor ∉ pre ∧
        DriverCall.disconnect ∉ pre ∧ DriverCall.DisposeDriver ∉ pre) ∧
    (∀ p b, parseArgs argv = .ok (p, b) → b ∈ availableBaudrates →
      w.CreateDriver = true → startupOk sdk w p b = true → w.gSigintHandled 0 = true →
      ∀ fuel, ∃ run, main sdk w argv (fuel + 1) = some run ∧
        run.ending = .returned EXIT_SUCCESS ∧
        (∀ n r, DriverCall.grabScanDataHq n r ∉ driverCalls run.trace) ∧
        driverCalls run.trace =
          [.CreateDriver sdk.DRIVER_TYPE_SERIALPORT,
           .connect p (static_cast_u32 b) (w.connect p (static_cast_u32 b)),
           .getDeviceInfo w.getDeviceInfo.1, .getHealth w.getHealth.1,
           .startMotor w.startMotor, .startScan false true 0 w.startScan.1,
           .stop, .stopMotor, .disconnect, .DisposeDriver]) ∧
    (∀ k, w.gSigintHandled k = true →
      ∃ run, ∀ fuel, k < fuel → main sdk w argv fuel = some run) := by
  refine ⟨?_, ?_, ?_⟩
  · intro fuel run ty hrun hmem hc
    rw [mem_driverCalls] at hmem
    rcases main_cases sdk w argv fuel run hrun with hnone | ⟨hc0, -⟩ | ⟨-, p, b, r, hr, rfl⟩
    · exact absurd hmem (hnone _)
    · rw [hc] at hc0
      cases hc0
    · have hev := (session_events sdk w p b fuel r hr).1
      refine ⟨.CreateDriver sdk.DRIVER_TYPE_SERIALPORT :: driverCalls r.1, ?_, ?_, ?_, ?_, ?_⟩
      · simp [driverCalls, driverCalls_append, driverCalls_cleanup]
      all_goals
        intro hin
        simp only [List.mem_cons, reduceCtorEq, false_or, mem_driverCalls] at hin
        exact hev _ hin (by simp [cleanup])
  · intro p b hp hb hc hok h0 fuel
    simp only [startupOk, Bool.and_eq_true, Bool.not_eq_true', beq_eq_false_iff_ne] at hok
    obtain ⟨⟨⟨⟨⟨h1, h2⟩, h3⟩, h4⟩, h5⟩, h6⟩ := hok
    have h4' : (w.getHealth.2.status == sdk.RPLIDAR_STATUS_ERROR) = false := by
      simpa using h4
    have hmain : main sdk w argv (fuel + 1) = some
        ⟨[.call (.CreateDriver sdk.DRIVER_TYPE_SERIALPORT),
          .call (.connect p (static_cast_u32 b) (w.connect p (static_cast_u32 b))),
          .call (.getDeviceInfo w.getDeviceInfo.1), .printDeviceInfo w.getDeviceInfo.2,
          .call (.getHealth w.getHealth.1), .printHealthInfo w.getHealth.2, .sigaction,
          .call (.startMotor w.startMotor), .call (.startScan false true 0 w.startScan.1),
          .printScanMode w.startScan.2,
          .call .stop, .call .stopMotor, .call .disconnect, .call .DisposeDriver],
          .returned EXIT_SUCCESS⟩ := by
      simp only [main, hp, mainFrom_session sdk w p b _ hb hc, session, acquire, h0, h1, h2,
        h3, h4', h5, h6, Bool.false_eq_true, if_false, if_true, Option.map_some']
      rfl
    refine ⟨_, hmain, rfl, ?_, ?_⟩
    · intro n r
      simp [driverCalls]
    · simp [driverCalls]
  · intro k hk
    obtain ⟨run, hrun⟩ := main_terminates sdk w argv k hk
    exact ⟨run, fun fuel hf => main_mono_le sdk w argv (k + 1) fuel run hrun hf⟩

theorem cleanup_runs_once_in_order_witness :
    main vendorSdk interruptedWorld ["rplidar-scan"] 1 = some interruptedRun ∧
    DriverCall.CreateDriver 0 ∈ driverCalls interruptedRun.trace ∧
    interruptedWorld.CreateDriver = true ∧
    parseArgs ["rplidar-scan"] = .ok ("/dev/ttyUSB0", 115200) ∧
    (115200 : Int) ∈ availableBaudrates ∧
    startupOk vendorSdk interruptedWorld "/dev/ttyUSB0" 115200 = true ∧
    interruptedWorld.gSigintHandled 0 = true ∧
    (∃ pre, driverCalls interruptedRun.trace =
        pre ++ [.stop, .stopMotor, .disconnect, .DisposeDriver] ∧
      DriverCall.stop ∉ pre ∧ DriverCall.stopMotor ∉ pre ∧
      DriverCall.disconnect ∉ pre ∧ DriverCall.DisposeDriver ∉ pre) ∧
    (∃ run, main vendorSdk interruptedWorld ["rplidar-scan"] (0 + 1) = some run ∧
      run.ending = .returned EXIT_SUCCESS ∧
      (∀ n r, DriverCall.grabScanDataHq n r ∉ driverCalls run.trace) ∧
      driverCalls run.trace =
        [.CreateDriver vendorSdk.DRIVER_TYPE_SERIALPORT,
         .connect "/dev/ttyUSB0" (static_cast_u32 115200)
           (interruptedWorld.connect "/dev/ttyUSB0" (static_cast_u32 115200)),
         .getDeviceInfo interruptedWorld.getDeviceInfo.1,
         .getHealth interruptedWorld.getHealth.1,
         .startMotor interruptedWorld.startMotor,
         .startScan false true 0 interruptedWorld.startScan.1,
         .stop, .stopMotor, .disconnect, .DisposeDriver]) ∧
    (∃ run, ∀ fuel, 0 < fuel →
      main vendorSdk interruptedWorld ["rplidar-scan"] fuel = some run) :=
  ⟨rfl, by decide, rfl, rfl, by decide, rfl, rfl,
    (cleanup_runs_once_in_order vendorSdk interruptedWorld ["rplidar-scan"]).1
      1 interruptedRun 0 rfl (by decide) rfl,
    (cleanup_runs_once_in_order vendorSdk interruptedWorld ["rplidar-scan"]).2.1
      "/dev/ttyUSB0" 115200 rfl (by decide) rfl rfl rfl 0,
    (cleanup_runs_once_in_order vendorSdk interruptedWorld ["rplidar-scan"]).2.2 0 rfl⟩

/-- C8: in every run in which a fetch fails, the failed fetch is followed by nothing
but its message on `std::cerr` and the four cleanup calls: no node is printed, no sort
and no further fetch is attempted after it; before it there is neither another failed
fetch nor any cleanup call, so the cleanup sequence runs exactly once.  And such runs
do finish: after a successful startup, when the interrupt flag is not seen set at the
checks of iterations 0 to `k` and the fetch of iteration `k` fails, `main` returns with
any loop fuel above `k` one and the same run, which holds a failed fetch and ends as
described. -/
theorem failed_fetch_ends_the_run (sdk : Sdk) (w : World) (argv : List String) :
    (∀ fuel run, main sdk w argv fuel = some run →
      (∃ e ∈ run.trace, isFailedFetch sdk e = true) →
      ∃ pre n r, sdk.IS_FAIL r = true ∧
        run.trace = pre ++ [.call (.grabScanDataHq n r),
          .cerr "RPlidarDriver::grabScanDataHq() failed\n",
          .call .stop, .call .stopMotor, .call .disconnect, .call .DisposeDriver] ∧
        ∀ e ∈ pre, isFailedFetch sdk e = false ∧ e ∉ cleanup) ∧
    (∀ p b k, parseArgs argv = .ok (p, b) → b ∈ availableBaudrates →
      w.CreateDriver = true → startupOk sdk w p b = true →
      (∀ i, i ≤ k → w.gSigintHandled i = false) →
      sdk.IS_FAIL (fetchResultAt sdk w k) = true →
      ∃ run, (∀ fuel, k < fuel → main sdk w argv fuel = some run) ∧
        (∃ e ∈ run.trace, isFailedFetch sdk e = true) ∧
        ∃ pre n r, sdk.IS_FAIL r = true ∧
          run.trace = pre ++ [.call (.grabScanDataHq n r),
            .cerr "RPlidarDriver::grabScanDataHq() failed\n",
            .call .stop, .call .stopMotor, .call .disconnect, .call .DisposeDriver] ∧
          ∀ e ∈ pre, isFailedFetch sdk e = false ∧ e ∉ cleanup) := by
  refine ⟨fun fuel run hrun hfail => main_failed_fetch sdk w argv fuel run hrun hfail, ?_⟩
  intro p b k hp hb hc hok hsig hfail
  obtain ⟨run, hrun, hff⟩ := main_of_fetch_fails sdk w argv p b k hp hb hc hok hsig hfail
  exact ⟨run, fun fuel hf => main_mono_le sdk w argv (k + 1) fuel run hrun hf, hff,
    main_failed_fetch sdk w argv (k + 1) run hrun hff⟩

theorem failed_fetch_ends_the_run_witness :
    main vendorSdk timeoutWorld ["rplidar-scan"] 2 = some timeoutRun ∧
    (∃ e ∈ timeoutRun.trace, isFailedFetch vendorSdk e = true) ∧
    (∃ pre n r, vendorSdk.IS_FAIL r = true ∧
      timeoutRun.trace = pre ++ [.call (.grabScanDataHq n r),
        .cerr "RPlidarDriver::grabScanDataHq() failed\n",
        .call .stop, .call .stopMotor, .call .disconnect, .call .DisposeDriver] ∧
      ∀ e ∈ pre, isFailedFetch vendorSdk e = false ∧ e ∉ cleanup) ∧
    parseArgs ["rplidar-scan"] = .ok ("/dev/ttyUSB0", 115200) ∧
    (115200 : Int) ∈ availableBaudrates ∧
    timeoutWorld.CreateDriver = true ∧
    startupOk vendorSdk timeoutWorld "/dev/ttyUSB0" 115200 = true ∧
    (∀ i, i ≤ 1 → timeoutWorld.gSigintHandled i = false) ∧
    vendorSdk.IS_FAIL (fetchResultAt vendorSdk timeoutWorld 1) = true ∧
    (∃ run, (∀ fuel, 1 < fuel → main vendorSdk timeoutWorld ["rplidar-scan"] fuel = some run) ∧
      (∃ e ∈ run.trace, isFailedFetch vendorSdk e = true) ∧
      ∃ pre n r, vendorSdk.IS_FAIL r = true ∧
        run.trace = pre ++ [.call (.grabScanDataHq n r),
          .cerr "RPlidarDriver::grabScanDataHq() failed\n",
          .call .stop, .call .stopMotor, .call .disconnect, .call .DisposeDriver] ∧
        ∀ e ∈ pre, isFailedFetch vendorSdk e = false ∧ e ∉ cleanup) :=
  ⟨rfl, ⟨.call (.grabScanDataHq 2 0x80000002), by simp [timeoutRun], rfl⟩,
    (failed_fetch_ends_the_run vendorSdk timeoutWorld ["rplidar-scan"]).1 2 timeoutRun rfl
      ⟨.call (.grabScanDataHq 2 0x80000002), by simp [timeoutRun], rfl⟩,
    rfl, by decide, rfl, rfl, fun _ _ => rfl, rfl,
    (failed_fetch_ends_the_run vendorSdk timeoutWorld ["rplidar-scan"]).2
      "/dev/ttyUSB0" 115200 1 rfl (by decide) rfl rfl (fun _ _ => rfl) rfl⟩

/-- C4 (the code departs from the claim): on a device on which the whole startup
succeeds, no interrupt arrives and the first fetch fails, `main` leaves the loop through
the failed fetch and returns `EXIT_SUCCESS`, not the failure status. -/
theorem fetch_failure_returns_success :
    startupOk vendorSdk deadWorld "/dev/ttyUSB0" 115200 = true ∧
    (∀ k, deadWorld.gSigintHandled k = false) ∧
    main vendorSdk deadWorld ["rplidar-scan"] 1 = some deadRun ∧
    Event.call (.grabScanDataHq 8192 0x80000001) ∈ deadRun.trace ∧
    vendorSdk.IS_FAIL 0x80000001 = true ∧
    deadRun.ending = .returned EXIT_SUCCESS ∧
    deadRun.ending ≠ .returned EXIT_FAILURE :=
  ⟨rfl, fun _ => rfl, rfl, by simp [deadRun], rfl, rfl, by decide⟩

/-- C9 (the code departs from the claim): on a device whose first fetch delivers two
nodes, the first fetch is requested with `MAX_SCAN_NODES` = 8192 but the second one
with a count of 2, the number of nodes that the first fetch returned. -/
theorem second_fetch_requests_previous_count :
    vendorSdk.MAX_SCAN_NODES = 8192 ∧
    (main vendorSdk healthyWorld ["rplidar-scan"] 3).map
        (fun run => (driverCalls run.trace).filterMap fetchCount) = some [8192, 2] :=
  ⟨rfl, by decide⟩

/-- C10 (counterexample): the argument "115200abc", a valid rate followed by trailing
characters, is accepted: the program connects at 115200 baud and returns the success
status without any message about the baud rate; and on the non-numeric argument "fast"
and the out-of-range argument "4294967296" the program does not return at all but is
aborted by the exception that `std::stoi` throws, with nothing written. -/
theorem baud_argument_with_trailing_characters_is_accepted :
    main vendorSdk interruptedWorld ["rplidar-scan", "/dev/ttyUSB0", "115200abc"] 1 =
      some interruptedRun ∧
    DriverCall.connect "/dev/ttyUSB0" 115200 0 ∈ driverCalls interruptedRun.trace ∧
    interruptedRun.ending = .returned EXIT_SUCCESS ∧
    main vendorSdk interruptedWorld ["rplidar-scan", "/dev/ttyUSB0", "fast"] 1 =
      some ⟨[], .uncaught .invalid_argument⟩ ∧
    main vendorSdk interruptedWorld ["rplidar-scan", "/dev/ttyUSB0", "4294967296"] 1 =
      some ⟨[], .uncaught .out_of_range⟩ :=
  ⟨rfl, by decide, rfl, rfl, rfl⟩

/-- C10 (amended): for every command line whose second argument `std::stoi` converts
to an integer other than 115200 and 256000, the whole run of `main` is the
invalid-baud-rate message with its usage hint on `std::cerr` followed by the return of
the failure status; there is no driver call. -/
theorem rejected_baud_argument_is_reported (sdk : Sdk) (w : World) (argv : List String)
    (fuel : Nat) (b : Int) (hargc : 2 < argv.length)
    (hstoi : stoi (argv.getD 2 "") = .ok b) (h1 : b ≠ 115200) (h2 : b ≠ 256000) :
    main sdk w argv fuel =
      some ⟨[.cerr "Invalid baudrate specified\nAvailable baudrate: 115200, 256000\n"],
        .returned EXIT_FAILURE⟩ ∧
    driverCalls [.cerr "Invalid baudrate specified\nAvailable baudrate: 115200, 256000\n"]
      = [] := by
  have hb : b ∉ availableBaudrates := by simp [availableBaudrates, h1, h2]
  refine ⟨?_, rfl⟩
  simp only [main, parseArgs, hargc, if_true, hstoi, mainFrom, hb, not_false_eq_true]

theorem rejected_baud_argument_is_reported_witness :
    2 < ["rplidar-scan", "/dev/ttyUSB0", " +57600 baud"].length ∧
    stoi (["rplidar-scan", "/dev/ttyUSB0", " +57600 baud"].getD 2 "") = .ok 57600 ∧
    (57600 : Int) ≠ 115200 ∧ (57600 : Int) ≠ 256000 ∧
    main vendorSdk healthyWorld ["rplidar-scan", "/dev/ttyUSB0", " +57600 baud"] 0 =
      some ⟨[.cerr "Invalid baudrate specified\nAvailable baudrate: 115200, 256000\n"],
        .returned EXIT_FAILURE⟩ ∧
    driverCalls [.cerr "Invalid baudrate specified\nAvailable baudrate: 115200, 256000\n"]
      = [] :=
  ⟨by decide, rfl, by decide, by decide,
    rejected_baud_argument_is_reported vendorSdk healthyWorld
      ["rplidar-scan", "/dev/ttyUSB0", " +57600 baud"] 0 57600 (by decide) rfl
      (by decide) (by decide)⟩

end RplidarScan
